import Mathlib

/-!
Verification development for the race simulation engine (`race_sim_3_func.py`).

All machine-real ("float") quantities of the source are modelled as exact
rationals (`ℚ`); `scipy.integrate.quad` of a linear integrand is replaced by
its exact closed-form value, and `scipy.optimize.brentq` is modelled by an
abstract bracketed root finder carrying its documented postcondition.
Python objects mutated in place become explicit state passing; the shared
`positions_dict` of the overtake resolver becomes a `List Car` indexed from
the leader, together with the mover's index (`car_position`) and the
`stuck_behind` flag.
-/

namespace RaceSim

/-- State and fixed capabilities of one car, mirroring the attribute set
created by `Car.__init__` (source lines 74-99). -/
structure Car where
  name : String
  max_accel : ℚ
  max_brake : ℚ
  max_speed : ℚ
  cornering : ℚ
  drive_style : ℚ
  accel : ℚ
  brake : ℚ
  speed : ℚ
  distance : ℚ
  distance_travel : ℚ
  max_tyre_life : ℚ
  tyre_wear : ℚ
  tyre_deg : ℚ
  tyre_perf : ℚ
  tyre_corner_penalty : ℚ
  lap_count : ℕ
  pit_lap : ℕ
  box_time : ℚ
  box_location : ℚ
  stopped : Bool
  in_pit : Bool
  pit_duration : ℚ
  next_corner : ℕ
  deriving DecidableEq

/-- `Car.__init__` (source lines 74-99): stores the capability arguments
verbatim and initialises the mutable state. -/
def Car.init (name : String) (max_accel max_brake max_speed max_tyre_life : ℚ)
    (cornering drive_style : ℚ) (pit_lap : ℕ) (box_time box_location : ℚ) : Car :=
  { name := name
    max_accel := max_accel
    max_brake := max_brake
    max_speed := max_speed
    cornering := cornering
    drive_style := drive_style
    accel := max_accel
    brake := max_brake
    speed := 0
    distance := 0
    distance_travel := 0
    max_tyre_life := max_tyre_life
    tyre_wear := 0
    tyre_deg := 0
    tyre_perf := 1
    tyre_corner_penalty := 0
    lap_count := 0
    pit_lap := pit_lap
    box_time := box_time
    box_location := box_location
    stopped := false
    in_pit := false
    pit_duration := 0
    next_corner := 0 }

/-- `Car.lap_location` (source lines 107-108). -/
def Car.lap_location (car : Car) (lap_length : ℚ) : ℚ :=
  car.distance - (car.lap_count : ℚ) * lap_length

/-- `Car.calc_tyre_perf` (source lines 111-123): folds the distance just
travelled and the cornering penalty into tyre wear (scaled by the fuel
effect), recomputes the degradation ratio and the performance multiplier. -/
def Car.calc_tyre_perf (car : Car) (max_fuel_effect race_distance : ℚ) : Car :=
  let fuel_effect := 1 + max_fuel_effect * ((race_distance - car.distance) / race_distance)
  let tyre_wear := car.tyre_wear + (car.distance_travel + car.tyre_corner_penalty) * fuel_effect
  let tyre_deg := tyre_wear / car.max_tyre_life
  let tyre_perf := max (1 - tyre_deg ^ 2) (1 / 4)
  { car with tyre_wear := tyre_wear, tyre_deg := tyre_deg, tyre_perf := tyre_perf }

/-- `Car.calc_accel` (source lines 126-128). -/
def Car.calc_accel (car : Car) (max_fuel_effect race_distance : ℚ) : Car :=
  { car with accel := car.max_accel * car.tyre_perf *
      (1 - max_fuel_effect * ((race_distance - car.distance) / race_distance)) }

/-- `Car.calc_brake` (source lines 131-133). -/
def Car.calc_brake (car : Car) (max_fuel_effect race_distance : ℚ) : Car :=
  { car with brake := car.max_brake * car.tyre_perf *
      (1 - max_fuel_effect * ((race_distance - car.distance) / race_distance)) }

/-- Corner of a track, mirroring `Corner.__init__` (source lines 187-194).
The lap-relative `end` marker is called `end_` because `end` is reserved. -/
structure Corner where
  name : String
  start : ℚ
  apex : ℚ
  end_ : ℚ
  max_speed : ℚ
  speed : ℚ
  overtake : ℚ
  deriving DecidableEq

/-- `Corner.__init__` (source lines 187-194): stores the arguments verbatim
and initialises the current apex speed to the nominal one. -/
def Corner.init (name : String) (start apex end_ max_speed overtake : ℚ) : Corner :=
  { name := name
    start := start
    apex := apex
    end_ := end_
    max_speed := max_speed
    speed := max_speed
    overtake := overtake }

/-- `Corner.calc_apex_speed` (source lines 201-202). -/
def Corner.calc_apex_speed (c : Corner) (car_tyre_perf car_cornering : ℚ) : Corner :=
  { c with speed := c.max_speed * car_tyre_perf * car_cornering }

/-- `Track.__init__` (source lines 157-163). -/
structure Track where
  name : String
  lap_length : ℚ
  pit_length : ℚ
  pit_speed_limit : ℚ
  corner_list : List Corner
  lap_fuel_effect : ℚ
  deriving DecidableEq

/-- `calc_brake_dist` (source lines 451-475): the `quad` of the linear
velocity profile is its exact integral. -/
def calc_brake_dist (current_speed apex_speed max_brake : ℚ) : ℚ :=
  let t := (current_speed - apex_speed) / (-max_brake)
  current_speed * t + max_brake * t ^ 2 / 2

/-- `update_vel` (source lines 534-549). -/
def update_vel (current_speed accel_brake time_increment : ℚ) : ℚ :=
  current_speed + accel_brake * time_increment

/-- `calc_dist` (source lines 552-593): distance covered in a linear speed
phase, splitting at the crossing into the max-speed plateau when the end
speed would exceed `max_speed`. -/
def calc_dist (current_speed time_increment accel_brake max_speed : ℚ) : ℚ :=
  if update_vel current_speed accel_brake time_increment > max_speed then
    let t_a := (max_speed - current_speed) / accel_brake
    (current_speed * t_a + accel_brake * t_a ^ 2 / 2) + max_speed * (time_increment - t_a)
  else
    current_speed * time_increment + accel_brake * time_increment ^ 2 / 2

/-- The phase equation solved by `solve_brake_time_func` (source line 521). -/
def brake_time_poly (vel_0 max_brake dist_delta t_b : ℚ) : ℚ :=
  vel_0 * t_b + (max_brake / 2) * t_b ^ 2 - dist_delta

/-- The composite accel-then-brake phase equation solved by
`solve_accel_brake_time_func` (source lines 483-485). The closure captures
`t_b_ratio`, which the enclosing function computes separately at source line
488 and is therefore a parameter here, not a quotient formed inside the
equation. -/
def accel_brake_time_poly (vel_0 max_accel max_brake t_b_ratio dist_delta t_a : ℚ) : ℚ :=
  vel_0 * t_a + (max_accel / 2) * t_a ^ 2 + vel_0 * (t_b_ratio * t_a - t_a)
    - (max_brake / 2) * (t_b_ratio * t_a - t_a) ^ 2 - dist_delta

/-- Abstract model of `scipy.optimize.brentq` on a bracket: it either finds a
root inside the bracket or fails (raises, modelled as `none`); the bare
`except` of the source turns any failure into the fallback. -/
structure BrentqSolver where
  solve : (ℚ → ℚ) → ℚ → ℚ → Option ℚ
  solve_mem : ∀ f a b r, solve f a b = some r → a ≤ r ∧ r ≤ b ∧ f r = 0

/-- A vacuous solver that always fails, inhabiting `BrentqSolver`. -/
def trivialSolver : BrentqSolver :=
  { solve := fun _ _ _ => none
    solve_mem := fun _ _ _ _ h => by cases h }

/-- `solve_brake_time_func` (source lines 501-531): try `brentq` on `[0, 1]`,
fall back to `1` on any failure. -/
def solve_brake_time_func (bq : BrentqSolver) (vel_0 max_brake dist_delta : ℚ) : ℚ :=
  match bq.solve (brake_time_poly vel_0 max_brake dist_delta) 0 1 with
  | some t_b => t_b
  | none => 1

/-- `solve_accel_brake_time_func` (source lines 478-498): compute
`t_b_ratio = (-max_brake + max_accel) / (-max_brake)` (source line 488 —
outside the try/except, so a zero divisor raises an uncaught
`ZeroDivisionError`, modelled as `none`), then try `brentq` on `[0, 1]` and
fall back to `1` on any failure inside the try. -/
def solve_accel_brake_time_func (bq : BrentqSolver)
    (vel_0 max_accel max_brake dist_delta : ℚ) : Option ℚ :=
  if -max_brake = 0 then none
  else
    match bq.solve (accel_brake_time_poly vel_0 max_accel max_brake
        ((-max_brake + max_accel) / (-max_brake)) dist_delta) 0 1 with
    | some t_a => some t_a
    | none => some 1

/-- Python's `round(x, p)` to `p` decimal places (tie behaviour at exact
half-points follows Mathlib's `round`; no claim in this file depends on a
tie). -/
def roundq (p : ℕ) (x : ℚ) : ℚ :=
  ((round (x * 10 ^ p) : ℤ) : ℚ) / 10 ^ p

/-- Placeholder car used for total list indexing (`positions_dict` lookups in
the source are always at valid keys). -/
def carDefault : Car := Car.init "" 0 0 0 0 1 1 0 0 0

/-- Placeholder corner used for total list indexing. -/
def cornerDefault : Corner := Corner.init "" 0 0 0 0 0

/-- The read-only arguments and globals consulted by one `overtake` call
(source lines 596-624): the track, the `car_length` gap, the names of the
cars in `finished_cars`, the two corner arguments and the mover's
unobstructed potential displacement and speed. -/
structure OCtx where
  track : Track
  car_length : ℚ
  finished : List String
  next_corner : Corner
  prev_corner : Corner
  potential_dist : ℚ
  potential_speed : ℚ
  deriving DecidableEq

/-- The mutable global state touched by `overtake`: `positions_dict` (index 0
is the leader; the entry at `cp` is the mover, aliasing the `car` argument of
the source), `car_position` and `stuck_behind`. -/
structure OState where
  positions : List Car
  cp : ℕ
  stuck : Bool
  deriving DecidableEq

/-- The mover (`car` in the source): the entry of `positions_dict` at
`car_position`. -/
def OState.mover (st : OState) : Car := st.positions.getD st.cp carDefault

/-- Write the mover's object back: mutation of `car` in the source is visible
through `positions_dict[car_position]`. -/
def OState.setMover (st : OState) (c : Car) : OState :=
  { st with positions := st.positions.set st.cp c }

/-- The unobstructed grant (`car.distance_travel = potential_dist;
car.speed = potential_speed`, e.g. source lines 653-657). -/
def takePotential (ctx : OCtx) (st : OState) : OState :=
  st.setMover { st.mover with
    distance_travel := ctx.potential_dist
    speed := ctx.potential_speed }

/-- The applicable overtake threshold (source lines 755-774): the previous
corner's if the mover's lap-relative position is strictly inside it, else the
next corner's if strictly inside it, else `0` on a straight. -/
def overtake_req (ctx : OCtx) (car : Car) : ℚ :=
  let car_lap_dist := car.distance - ctx.track.lap_length * (car.lap_count : ℚ)
  if ctx.prev_corner.start < car_lap_dist ∧ car_lap_dist < ctx.prev_corner.end_ then
    ctx.prev_corner.overtake
  else if ctx.next_corner.start < car_lap_dist ∧ car_lap_dist < ctx.next_corner.end_ then
    ctx.next_corner.overtake
  else 0

/-- The cascading re-pass loop after a block (source lines 837-861): walk the
entries at keys `k, k+1, ...`; while the trailing car's current distance puts
it past the stalled mover (`car.distance_travel < car_behind.distance -
car.distance`) and `k > car_position`, swap the two and continue, else stop.
`fuel` is the number of remaining keys of the Python `range`. -/
def cascade : ℕ → ℕ → OState → OState
  | _, 0, st => st
  | k, fuel + 1, st =>
    let car := st.mover
    let car_behind := st.positions.getD k carDefault
    if car.distance_travel < car_behind.distance - car.distance ∧ st.cp < k then
      cascade (k + 1) fuel
        { positions := (st.positions.set (k - 1) car_behind).set k car
          cp := k
          stuck := st.stuck }
    else st

/-- One iteration of the scan over the cars ahead (source lines 645-864),
contesting the car at index `j`; the `Bool` is `true` when the Python loop
`break`s. -/
def overtakeStep (ctx : OCtx) (j : ℕ) (st : OState) : OState × Bool :=
  let car := st.mover
  let car_in_front := st.positions.getD j carDefault
  if car.distance + ctx.potential_dist ≤ car_in_front.distance - ctx.car_length then
    (takePotential ctx st, true)
  else if car_in_front.name ∈ ctx.finished then
    (takePotential ctx st, true)
  else if car_in_front.in_pit then
    if car.in_pit = false ∧ ctx.next_corner.name ≠ "Pit Entry" then
      let st1 := takePotential ctx st
      if car.distance + ctx.potential_dist > car_in_front.distance then
        ({ positions := (st1.positions.set j st1.mover).set (j + 1) car_in_front
           cp := j, stuck := st1.stuck }, false)
      else (st1, false)
    else if car_in_front.speed = 0 then
      let st1 := takePotential ctx st
      if car.distance + ctx.potential_dist > car_in_front.distance then
        ({ positions := (st1.positions.set j st1.mover).set (j + 1) car_in_front
           cp := j, stuck := st1.stuck }, false)
      else (st1, false)
    else
      let st1 := st.setMover { car with
        distance_travel := car_in_front.distance - car.distance - ctx.car_length
        speed := min car_in_front.speed ctx.potential_speed }
      ({ st1 with stuck := true }, true)
  else
    let req := overtake_req ctx car
    if ctx.potential_speed - car_in_front.speed ≥ req ∨ req = 0 then
      let st1 := takePotential ctx st
      if car.distance + ctx.potential_dist < car_in_front.distance then
        (st1, false)
      else
        ({ positions := (st1.positions.set j st1.mover).set (j + 1) car_in_front
           cp := j, stuck := st1.stuck }, false)
    else
      let st1 := st.setMover { car with
        distance_travel := car_in_front.distance - car.distance - ctx.car_length
        speed := min car_in_front.speed ctx.potential_speed }
      let st2 := { st1 with stuck := true }
      (cascade (j + 2) (st2.positions.length - (j + 2)) st2, true)

/-- The scan over the cars ahead of the mover, from index `j` down to the
leader at index `0`, honouring `break` (source loop
`for x in range((-car_position + 1), 1)`). -/
def overtakeScan (ctx : OCtx) : ℕ → OState → OState
  | 0, st => (overtakeStep ctx 0 st).1
  | j + 1, st =>
    let p := overtakeStep ctx (j + 1) st
    if p.2 then p.1 else overtakeScan ctx j p.1

/-- `overtake` (source lines 596-864): the leader always takes its potential
values (source lines 633-639); any other car scans the cars ahead starting
with the one immediately in front. -/
def overtake (ctx : OCtx) (st : OState) : OState :=
  if st.cp = 0 then takePotential ctx st
  else overtakeScan ctx (st.cp - 1) st

/-- The displacement commit after overtake resolution
(`car.distance += car.distance_travel`, e.g. source line 1238). -/
def commitDistance (car : Car) : Car :=
  { car with distance := car.distance + car.distance_travel }

/-- Guard of the per-car sub-increment loop (source line 1025): run while the
macro-tick's time budget is unspent and the car is not stuck behind. -/
def subLoopGuard (time_period sum_time_increment : ℚ) (stuck : Bool) : Bool :=
  decide (roundq 2 sum_time_increment < time_period) && !stuck

/-- The in-box pit phase body (source lines 1074-1099): wear, degradation and
performance are reset, the car is stationary, and the pit clock advances by
the clamped sub-increment. -/
def pitBoxStep (car : Car) (sum_time_increment : ℚ) : Car :=
  let t_p := max (1 / 200)
    (min 1 (min (1 - sum_time_increment) (car.box_location + car.box_time - car.pit_duration)))
  { car with
    tyre_wear := 0
    tyre_deg := 0
    tyre_perf := 1
    speed := 0
    pit_duration := car.pit_duration + t_p }

/-- The apex-crossing / corner-transition block of the simulation loop
(source lines 1345-1377): when the sub-increment's displacement reaches the
remaining apex distance, record the cubic cornering penalty, flag pit entry
when the corner is the "Pit Entry" marker, advance the corner pointer
cyclically, and skip the "Pit Entry" marker when the car is not due to pit on
the lap it is about to start. `next_corner` is the corner object the loop
bound at source line 1158 (its `speed` already updated by
`calc_apex_speed`). -/
def apexTransition (track : Track) (car : Car) (next_corner : Corner) (apex_dist : ℚ) : Car :=
  if roundq 2 car.distance_travel ≥ roundq 2 apex_dist then
    let speed_delta := car.speed - next_corner.speed
    let car1 := { car with
      tyre_corner_penalty := max 0 (speed_delta ^ 3 * (next_corner.end_ - next_corner.start)) }
    let car2 := if next_corner.name = "Pit Entry" then { car1 with in_pit := true } else car1
    let nc1 := (car2.next_corner + 1) % track.corner_list.length
    let nc2 :=
      if (track.corner_list.getD nc1 cornerDefault).name = "Pit Entry" ∧
          car2.lap_count + 1 ≠ car2.pit_lap then
        (nc1 + 1) % track.corner_list.length
      else nc1
    { car2 with next_corner := nc2 }
  else car

/-- The optional time limit (source lines 941-948): 90 simulated seconds when
enabled, the placeholder `0` otherwise. -/
def time_limit_of (race_time_limit : Bool) : ℚ :=
  if race_time_limit then 90 else 0

/-- The `while` condition of the macro-tick loop (source line 953), evaluated
once at the top of every macro-tick; `race_time` is the simulated race clock,
advanced by one simulated second per macro-tick (source line 1384). -/
def raceWhileCond (race_finished : Bool) (race_time : ℚ) (race_time_limit : Bool) : Bool :=
  !race_finished && (decide (race_time < time_limit_of race_time_limit) || !race_time_limit)

/-- The completion check at the top of the loop body (source line 956):
`race_finished` is set exactly when every car is in `finished_cars`. -/
def raceFinishedCheck (finished_count car_count : ℕ) : Bool :=
  finished_count == car_count

/-- The per-car finish test (source line 994): a car is added to
`finished_cars` once its distance exceeds the race distance. -/
def carFinished (car : Car) (lap_length : ℚ) (race_laps : ℕ) : Bool :=
  decide (car.distance > lap_length * (race_laps : ℚ))

/-- The race-clock advance at the end of each macro-tick (source line 1384). -/
def advanceRaceClock (race_time : ℚ) : ℚ := race_time + 1

/-- `positions_dict = copy.deepcopy(start_grid_dict)` (source line 902): the
simulation's working cars are value copies of the caller's cars, read out of
the caller's store through the grid references. -/
def deepcopyGrid (store : List Car) (grid : List ℕ) : List Car :=
  grid.map fun r => store.getD r carDefault

/-- One committed sub-increment for the car at position index `i`: overtake
resolution followed by the displacement commit (source lines 1235-1238),
acting only on the copied positions list. The potential displacement and
speed are inputs (they come from the numeric kinematics solver). -/
def subStep (ctx0 : OCtx) (pd ps : ℚ) (positions : List Car) (i : ℕ) : List Car :=
  let ctx := { ctx0 with potential_dist := pd, potential_speed := ps }
  let st := overtake ctx { positions := positions, cp := i, stuck := false }
  st.positions.set st.cp (commitDistance (st.positions.getD st.cp carDefault))

/-- One macro-tick of the simulation loop (source lines 965-1384) at the
aliasing level: each car, in current position order, performs a committed
sub-increment on the copied positions list. `pots` supplies each car's
solver-computed potential displacement and speed. -/
def macroTick (ctx0 : OCtx) (pots : List (ℚ × ℚ)) (positions : List Car) : List Car :=
  (List.range positions.length).foldl
    (fun ps i => subStep ctx0 (pots.getD i (0, 0)).1 (pots.getD i (0, 0)).2 ps i) positions

/-- The aliasing skeleton of `race` (source lines 901-908, 964-971): the
caller's car store is read once through `copy.deepcopy` of the starting grid,
every simulation write acts on the copies, and the caller's store is returned
untouched alongside the final copied positions. -/
def raceFrameModel (ctx0 : OCtx) (pots : List (ℚ × ℚ)) (store : List Car)
    (grid : List ℕ) (ticks : ℕ) : List Car × List Car :=
  (store, (fun ps => macroTick ctx0 pots ps)^[ticks] (deepcopyGrid store grid))

/-! ## Helper lemmas -/

/-- Reading a list at the index just written returns the written value. -/
theorem getD_set_self {α : Type} (l : List α) (i : ℕ) (c d : α) (h : i < l.length) :
    (l.set i c).getD i d = c := by
  simp [List.getD_eq_getElem?_getD, List.getElem?_set_self', List.getElem?_eq_getElem, h]

/-- Writing one index leaves reads at any other index unchanged. -/
theorem getD_set_ne {α : Type} (l : List α) (i j : ℕ) (c d : α) (h : i ≠ j) :
    (l.set i c).getD j d = l.getD j d := by
  simp [List.getD_eq_getElem?_getD, List.getElem?_set_ne h]

/-- The cascading re-pass loop moves the stalled mover around the ordering but
never changes its (already clamped) committed displacement or its distance. -/
theorem cascade_mover_fields : ∀ (fuel k : ℕ) (st : OState),
    fuel ≤ st.positions.length - k →
    (cascade k fuel st).mover.distance_travel = st.mover.distance_travel ∧
    (cascade k fuel st).mover.distance = st.mover.distance := by
  intro fuel
  induction fuel with
  | zero => intro k st _; exact ⟨rfl, rfl⟩
  | succ n ih =>
    intro k st h
    have hk : k < st.positions.length := by omega
    simp only [cascade]
    split
    · have hlen : ((st.positions.set (k - 1) (st.positions.getD k carDefault)).set k
          st.mover).length = st.positions.length := by
        simp [List.length_set]
      have hmover : (OState.mover
          { positions := (st.positions.set (k - 1) (st.positions.getD k carDefault)).set k
              st.mover, cp := k, stuck := st.stuck }) = st.mover := by
        simp only [OState.mover]
        exact getD_set_self _ _ _ _ (by simp [List.length_set]; omega)
      have := ih (k + 1)
        { positions := (st.positions.set (k - 1) (st.positions.getD k carDefault)).set k
            st.mover, cp := k, stuck := st.stuck } (by simp only [hlen]; omega)
      rw [hmover] at this
      exact this
    · exact ⟨rfl, rfl⟩

/-- Writing the mover back does not change the length of the ordering. -/
theorem setMover_length (st : OState) (c : Car) :
    (st.setMover c).positions.length = st.positions.length := by
  simp [OState.setMover]

/-- Reading the mover back after writing it returns the written car. -/
theorem setMover_mover (st : OState) (c : Car) (h : st.cp < st.positions.length) :
    (st.setMover c).mover = c := by
  simp only [OState.setMover, OState.mover]
  exact getD_set_self _ _ _ _ h

/-- The mover after an unobstructed grant. -/
theorem takePotential_mover (ctx : OCtx) (st : OState) (h : st.cp < st.positions.length) :
    (takePotential ctx st).mover
      = { st.mover with distance_travel := ctx.potential_dist, speed := ctx.potential_speed } :=
  setMover_mover _ _ h

/-- One scan iteration of the overtake resolver: the mover's committed
displacement is non-negative whenever its potential displacement is and every
car ahead up to the contested index is at least `car_length` ahead; and when
the iteration does not `break`, the positions length, the low indices of the
ordering and the mover's distance are all preserved and the mover's index
stays at or above the contested index. -/
theorem overtakeStep_facts (ctx : OCtx) (hpd : 0 ≤ ctx.potential_dist) (j : ℕ) (st : OState)
    (hcp : j < st.cp) (hlen : st.cp < st.positions.length)
    (hgap : ∀ i, i ≤ j →
      ctx.car_length ≤ (st.positions.getD i carDefault).distance - st.mover.distance) :
    0 ≤ (overtakeStep ctx j st).1.mover.distance_travel ∧
    ((overtakeStep ctx j st).2 = false →
      j ≤ (overtakeStep ctx j st).1.cp ∧
      (overtakeStep ctx j st).1.positions.length = st.positions.length ∧
      (overtakeStep ctx j st).1.cp < st.positions.length ∧
      (overtakeStep ctx j st).1.mover.distance = st.mover.distance ∧
      ∀ i, i < j → (overtakeStep ctx j st).1.positions.getD i carDefault
        = st.positions.getD i carDefault) := by
  have hj : j < st.positions.length := by omega
  have hswap : ∀ c : Car,
      (OState.mover ⟨((takePotential ctx st).positions.set j
          ((takePotential ctx st).mover)).set (j + 1) c, j, (takePotential ctx st).stuck⟩)
        = (takePotential ctx st).mover := by
    intro c
    simp only [OState.mover]
    rw [getD_set_ne _ _ _ _ _ (by omega), getD_set_self]
    rw [takePotential, setMover_length]
    exact hj
  have htake := takePotential_mover ctx st hlen
  have htravel : ((takePotential ctx st).mover).distance_travel = ctx.potential_dist := by
    rw [htake]
  have hdist : ((takePotential ctx st).mover).distance = st.mover.distance := by
    rw [htake]
  have htakelen : (takePotential ctx st).positions.length = st.positions.length :=
    setMover_length _ _
  have htakecp : (takePotential ctx st).cp = st.cp := rfl
  have htakelow : ∀ i, i < j → (takePotential ctx st).positions.getD i carDefault
      = st.positions.getD i carDefault := by
    intro i hi
    simp only [takePotential, OState.setMover]
    exact getD_set_ne _ _ _ _ _ (by omega)
  have hswaplow : ∀ (c : Car) (i : ℕ), i < j →
      (((takePotential ctx st).positions.set j ((takePotential ctx st).mover)).set (j + 1)
          c).getD i carDefault = st.positions.getD i carDefault := by
    intro c i hi
    rw [getD_set_ne _ _ _ _ _ (by omega), getD_set_ne _ _ _ _ _ (by omega)]
    exact htakelow i hi
  have hstuck_mover : ∀ (c : Car) (b : Bool),
      (OState.mover { st.setMover c with stuck := b }) = c := by
    intro c b
    simp only [OState.mover, OState.setMover]
    exact getD_set_self _ _ _ _ hlen
  simp only [overtakeStep]
  split_ifs with h1 h2 h3 h4 h5 h6 h7 h8
  · -- gap kept: break with potential values
    refine ⟨by rw [htravel]; exact hpd, by intro h; cases h⟩
  · -- car ahead has finished: break with potential values
    refine ⟨by rw [htravel]; exact hpd, by intro h; cases h⟩
  · -- ahead in pit, mover on track not pitting, pass completes: swap, continue
    refine ⟨by rw [hswap, htravel]; exact hpd, fun _ => ?_⟩
    refine ⟨le_refl j, ?_, by dsimp only; omega, ?_, ?_⟩
    · simp only [List.length_set]; exact htakelen
    · rw [hswap, hdist]
    · intro i hi; exact hswaplow _ i hi
  · -- ahead in pit, mover on track not pitting, alongside: continue
    refine ⟨by rw [htravel]; exact hpd, fun _ => ?_⟩
    exact ⟨by rw [htakecp]; omega, htakelen, by rw [htakecp]; omega, hdist, htakelow⟩
  · -- ahead stationary in box, pass completes: swap, continue
    refine ⟨by rw [hswap, htravel]; exact hpd, fun _ => ?_⟩
    refine ⟨le_refl j, ?_, by dsimp only; omega, ?_, ?_⟩
    · simp only [List.length_set]; exact htakelen
    · rw [hswap, hdist]
    · intro i hi; exact hswaplow _ i hi
  · -- ahead stationary in box, alongside: continue
    refine ⟨by rw [htravel]; exact hpd, fun _ => ?_⟩
    exact ⟨by rw [htakecp]; omega, htakelen, by rw [htakecp]; omega, hdist, htakelow⟩
  · -- ahead moving down pit lane: clamp, stuck, break
    refine ⟨?_, by intro h; cases h⟩
    rw [hstuck_mover]
    have := hgap j (le_refl j)
    dsimp only
    linarith
  · -- on-track pass legal, alongside: continue
    refine ⟨by rw [htravel]; exact hpd, fun _ => ?_⟩
    exact ⟨by rw [htakecp]; omega, htakelen, by rw [htakecp]; omega, hdist, htakelow⟩
  · -- on-track pass legal, in front: swap, continue
    refine ⟨by rw [hswap, htravel]; exact hpd, fun _ => ?_⟩
    refine ⟨le_refl j, ?_, by dsimp only; omega, ?_, ?_⟩
    · simp only [List.length_set]; exact htakelen
    · rw [hswap, hdist]
    · intro i hi; exact hswaplow _ i hi
  · -- on-track blocked: clamp, stuck, cascade, break
    refine ⟨?_, by intro h; cases h⟩
    have hcasc := cascade_mover_fields
      ((st.setMover { st.mover with
          distance_travel := (st.positions.getD j carDefault).distance
            - st.mover.distance - ctx.car_length,
          speed := min (st.positions.getD j carDefault).speed
            ctx.potential_speed }).positions.length - (j + 2)) (j + 2)
      { (st.setMover { st.mover with
          distance_travel := (st.positions.getD j carDefault).distance
            - st.mover.distance - ctx.car_length,
          speed := min (st.positions.getD j carDefault).speed
            ctx.potential_speed }) with stuck := true } (le_refl _)
    rw [hcasc.1]
    have hmv : ∀ b : Bool, (OState.mover { (st.setMover { st.mover with
        distance_travel := (st.positions.getD j carDefault).distance
          - st.mover.distance - ctx.car_length,
        speed := min (st.positions.getD j carDefault).speed
          ctx.potential_speed }) with stuck := b })
        = { st.mover with
            distance_travel := (st.positions.getD j carDefault).distance
              - st.mover.distance - ctx.car_length,
            speed := min (st.positions.getD j carDefault).speed ctx.potential_speed } := by
      intro b
      simp only [OState.mover, OState.setMover]
      exact getD_set_self _ _ _ _ hlen
    rw [hmv]
    have := hgap j (le_refl j)
    dsimp only
    linarith

/-- The scan over the cars ahead never produces a negative committed
displacement when the potential displacement is non-negative and every car
ahead is at least `car_length` ahead of the mover. -/
theorem overtakeScan_travel_nonneg (ctx : OCtx) (hpd : 0 ≤ ctx.potential_dist) :
    ∀ (j : ℕ) (st : OState), j < st.cp → st.cp < st.positions.length →
      (∀ i, i ≤ j →
        ctx.car_length ≤ (st.positions.getD i carDefault).distance - st.mover.distance) →
      0 ≤ (overtakeScan ctx j st).mover.distance_travel := by
  intro j
  induction j with
  | zero =>
    intro st hcp hlen hgap
    exact (overtakeStep_facts ctx hpd 0 st hcp hlen hgap).1
  | succ n ih =>
    intro st hcp hlen hgap
    have hfacts := overtakeStep_facts ctx hpd (n + 1) st hcp hlen hgap
    simp only [overtakeScan]
    cases hb : (overtakeStep ctx (n + 1) st).2 with
    | true =>
      rw [if_pos rfl]
      exact hfacts.1
    | false =>
      rw [if_neg Bool.false_ne_true]
      obtain ⟨hcp', hlen', hcplt', hdist', hlow'⟩ := hfacts.2 hb
      refine ih (overtakeStep ctx (n + 1) st).1 (by omega) (by rw [hlen']; exact hcplt') ?_
      intro i hi
      rw [hlow' i (by omega), hdist']
      exact hgap i (by omega)

/-! ## Claim theorems -/

/-- C1 amended: the displacement committed after overtake resolution is
non-negative — and committing it never decreases the car's distance —
provided the mover's potential displacement is non-negative and every car
ahead of it in the ordering is at least `car_length` ahead; when the mover is
already within `car_length` of the car that blocks it (reachable after
running "alongside") the clamped displacement is negative and the distance
decreases, as the counterexample shows. -/
theorem C1_theorem (ctx : OCtx) (st : OState) (hpd : 0 ≤ ctx.potential_dist)
    (hlen : st.cp < st.positions.length)
    (hgap : ∀ i, i < st.cp →
      ctx.car_length ≤ (st.positions.getD i carDefault).distance - st.mover.distance) :
    0 ≤ (overtake ctx st).mover.distance_travel ∧
    (overtake ctx st).mover.distance ≤ (commitDistance ((overtake ctx st).mover)).distance := by
  have h1 : 0 ≤ (overtake ctx st).mover.distance_travel := by
    rw [overtake]
    split_ifs with h0
    · rw [takePotential_mover ctx st hlen]
      exact hpd
    · exact overtakeScan_travel_nonneg ctx hpd (st.cp - 1) st (by omega) hlen
        (fun i hi => hgap i (by omega))
  refine ⟨h1, ?_⟩
  have hc : (commitDistance ((overtake ctx st).mover)).distance
      = (overtake ctx st).mover.distance + (overtake ctx st).mover.distance_travel := rfl
  rw [hc]
  linarith

/-- Witness for C1 at a concrete two-car state whose gap is exactly
`car_length`: the blocked clamp is `110 − 100 − 5 = 5 ≥ 0`. -/
theorem C1_witness :
    0 ≤ (overtake
        ⟨⟨"T", 1000, 20, 15, [], 0⟩, 5, [],
          ⟨"c1", 700, 750, 800, 30, 30, 2⟩, ⟨"c0", 90, 95, 110, 30, 30, 50⟩, 10, 10⟩
        ⟨[{ carDefault with name := "L", distance := 110, speed := 9 },
          { carDefault with name := "M", distance := 100, speed := 8 }], 1,
          false⟩).mover.distance_travel :=
  ( C1_theorem _ _ (by norm_num) (by norm_num)
    (by
      intro i hi
      have hi0 : i = 0 := by
        simpa using hi
      subst hi0
      norm_num [OState.mover, carDefault, Car.init])).1

/-- C1 counterexample: the displacement committed after overtake resolution
can be negative. A mover at distance 100, already within `car_length = 5` of
an on-track car ahead at 101 (reachable after running "alongside"), is
blocked inside a corner whose threshold (50) its speed advantage (1) does not
meet: its displacement is clamped to `101 − 100 − 5 = −4`, and committing it
moves the car backwards from 100 to 96. -/
theorem C1_counterexample :
    (overtake
        ⟨⟨"T", 1000, 20, 15, [], 0⟩, 5, [],
          ⟨"c1", 700, 750, 800, 30, 30, 2⟩, ⟨"c0", 90, 95, 110, 30, 30, 50⟩, 10, 10⟩
        ⟨[{ carDefault with name := "L", distance := 101, speed := 9 },
          { carDefault with name := "M", distance := 100, speed := 8 }], 1, false⟩).stuck
        = true ∧
    (overtake
        ⟨⟨"T", 1000, 20, 15, [], 0⟩, 5, [],
          ⟨"c1", 700, 750, 800, 30, 30, 2⟩, ⟨"c0", 90, 95, 110, 30, 30, 50⟩, 10, 10⟩
        ⟨[{ carDefault with name := "L", distance := 101, speed := 9 },
          { carDefault with name := "M", distance := 100, speed := 8 }], 1,
          false⟩).mover.distance_travel = -4 ∧
    (commitDistance (overtake
        ⟨⟨"T", 1000, 20, 15, [], 0⟩, 5, [],
          ⟨"c1", 700, 750, 800, 30, 30, 2⟩, ⟨"c0", 90, 95, 110, 30, 30, 50⟩, 10, 10⟩
        ⟨[{ carDefault with name := "L", distance := 101, speed := 9 },
          { carDefault with name := "M", distance := 100, speed := 8 }], 1,
          false⟩).mover).distance = 96 := by
  refine ⟨?_, ?_, ?_⟩ <;>
    norm_num [overtake, overtakeScan, overtakeStep, overtake_req, takePotential, cascade,
      commitDistance, OState.mover, OState.setMover, carDefault, Car.init]

/-- C3 amended: for a non-leading mover contesting an on-track (not
finished, not in-pit) car ahead within `car_length`: if the mover's potential
speed advantage is at least the applicable threshold, or the threshold is
`0`, the mover takes its full potential displacement and speed, and the
ordering swaps exactly when the mover's resulting distance is not less than
the car ahead's (in particular also at equality — "exceeds" fails, see the
counterexample); otherwise the displacement is clamped to
`ahead.distance − mover.distance − car_length`, the speed to
`min(ahead.speed, potential_speed)`, the mover is marked blocked, and the
blocked flag falsifies the sub-increment loop guard for this macro-tick. -/
theorem C3_theorem (ctx : OCtx) (A M : Car)
    (hreach : ¬(M.distance + ctx.potential_dist ≤ A.distance - ctx.car_length))
    (hfin : A.name ∉ ctx.finished)
    (hpit : A.in_pit = false) :
    ((ctx.potential_speed - A.speed ≥ overtake_req ctx M ∨ overtake_req ctx M = 0) →
      (M.distance + ctx.potential_dist < A.distance →
        overtake ctx ⟨[A, M], 1, false⟩
          = ⟨[A, { M with distance_travel := ctx.potential_dist,
                          speed := ctx.potential_speed }], 1, false⟩) ∧
      (¬(M.distance + ctx.potential_dist < A.distance) →
        overtake ctx ⟨[A, M], 1, false⟩
          = ⟨[{ M with distance_travel := ctx.potential_dist,
                       speed := ctx.potential_speed }, A], 0, false⟩)) ∧
    (¬(ctx.potential_speed - A.speed ≥ overtake_req ctx M ∨ overtake_req ctx M = 0) →
      overtake ctx ⟨[A, M], 1, false⟩
        = ⟨[A, { M with distance_travel := A.distance - M.distance - ctx.car_length,
                        speed := min A.speed ctx.potential_speed }], 1, true⟩ ∧
      (∀ tp s : ℚ, subLoopGuard tp s true = false)) := by
  have hkey : overtake ctx ⟨[A, M], 1, false⟩ = (overtakeStep ctx 0 ⟨[A, M], 1, false⟩).1 :=
    rfl
  have hpit' : ¬((OState.positions ⟨[A, M], 1, false⟩).getD 0 carDefault).in_pit = true := by
    simpa using hpit
  refine ⟨fun hlegal => ⟨fun halong => ?_, fun hnalong => ?_⟩,
    fun hblocked => ⟨?_, fun tp s => by simp [subLoopGuard]⟩⟩ <;>
  · rw [hkey]
    simp only [overtakeStep, OState.mover, OState.setMover, takePotential,
      List.getD_cons_succ, List.getD_cons_zero]
    first
      | rw [if_neg hreach, if_neg hfin, if_neg (by simpa using hpit), if_pos hlegal,
          if_pos halong]
      | rw [if_neg hreach, if_neg hfin, if_neg (by simpa using hpit), if_pos hlegal,
          if_neg hnalong]
      | rw [if_neg hreach, if_neg hfin, if_neg (by simpa using hpit), if_neg hblocked]
    rfl

/-- Witness for C3 at a concrete blocked contest: the mover (distance 100,
potential speed 10) contests a car ahead at 110 inside a corner whose
threshold 50 its advantage 1 does not meet; it ends clamped to displacement
5 and marked blocked. -/
theorem C3_witness :
    (overtake
        ⟨⟨"T", 1000, 20, 15, [], 0⟩, 5, [],
          ⟨"c1", 700, 750, 800, 30, 30, 2⟩, ⟨"c0", 90, 95, 110, 30, 30, 50⟩, 10, 10⟩
        ⟨[{ carDefault with name := "A", distance := 110, speed := 9 },
          { carDefault with name := "M", distance := 100, speed := 8 }], 1, false⟩).stuck
        = true ∧
    (overtake
        ⟨⟨"T", 1000, 20, 15, [], 0⟩, 5, [],
          ⟨"c1", 700, 750, 800, 30, 30, 2⟩, ⟨"c0", 90, 95, 110, 30, 30, 50⟩, 10, 10⟩
        ⟨[{ carDefault with name := "A", distance := 110, speed := 9 },
          { carDefault with name := "M", distance := 100, speed := 8 }], 1,
          false⟩).mover.distance_travel = 5 := by
  have h := ( C3_theorem
      ⟨⟨"T", 1000, 20, 15, [], 0⟩, 5, [],
        ⟨"c1", 700, 750, 800, 30, 30, 2⟩, ⟨"c0", 90, 95, 110, 30, 30, 50⟩, 10, 10⟩
      { carDefault with name := "A", distance := 110, speed := 9 }
      { carDefault with name := "M", distance := 100, speed := 8 }
      (by norm_num [carDefault, Car.init])
      (by simp)
      (by rfl)).2
    (by norm_num [overtake_req, carDefault, Car.init])
  rw [h.1]
  constructor
  · rfl
  · norm_num [OState.mover, carDefault, Car.init]

/-- C3 counterexample: the ordering swap also fires when the mover's
resulting distance merely equals (does not exceed) the car ahead's: a mover
at 0 with potential displacement 10 contesting a car at 10 on a straight
(threshold 0) ends the call swapped into the lead, its resulting distance
equal to the overtaken car's. -/
theorem C3_counterexample :
    (overtake
        ⟨⟨"T", 1000, 20, 15, [], 0⟩, 1, [],
          ⟨"c1", 700, 750, 800, 30, 30, 2⟩, ⟨"c0", 500, 550, 600, 30, 30, 2⟩, 10, 5⟩
        ⟨[{ carDefault with name := "A", distance := 10, speed := 9 },
          { carDefault with name := "M", distance := 0, speed := 5 }], 1, false⟩).cp = 0 ∧
    ((overtake
        ⟨⟨"T", 1000, 20, 15, [], 0⟩, 1, [],
          ⟨"c1", 700, 750, 800, 30, 30, 2⟩, ⟨"c0", 500, 550, 600, 30, 30, 2⟩, 10, 5⟩
        ⟨[{ carDefault with name := "A", distance := 10, speed := 9 },
          { carDefault with name := "M", distance := 0, speed := 5 }], 1,
          false⟩).positions.getD 0 carDefault).name = "M" ∧
    (overtake
        ⟨⟨"T", 1000, 20, 15, [], 0⟩, 1, [],
          ⟨"c1", 700, 750, 800, 30, 30, 2⟩, ⟨"c0", 500, 550, 600, 30, 30, 2⟩, 10, 5⟩
        ⟨[{ carDefault with name := "A", distance := 10, speed := 9 },
          { carDefault with name := "M", distance := 0, speed := 5 }], 1,
          false⟩).mover.distance
      + (overtake
        ⟨⟨"T", 1000, 20, 15, [], 0⟩, 1, [],
          ⟨"c1", 700, 750, 800, 30, 30, 2⟩, ⟨"c0", 500, 550, 600, 30, 30, 2⟩, 10, 5⟩
        ⟨[{ carDefault with name := "A", distance := 10, speed := 9 },
          { carDefault with name := "M", distance := 0, speed := 5 }], 1,
          false⟩).mover.distance_travel
      = ((overtake
        ⟨⟨"T", 1000, 20, 15, [], 0⟩, 1, [],
          ⟨"c1", 700, 750, 800, 30, 30, 2⟩, ⟨"c0", 500, 550, 600, 30, 30, 2⟩, 10, 5⟩
        ⟨[{ carDefault with name := "A", distance := 10, speed := 9 },
          { carDefault with name := "M", distance := 0, speed := 5 }], 1,
          false⟩).positions.getD 1 carDefault).distance := by
  refine ⟨?_, ?_, ?_⟩ <;>
    norm_num [overtake, overtakeScan, overtakeStep, overtake_req, takePotential, cascade,
      OState.mover, OState.setMover, carDefault, Car.init]

/-- C5 amended: when a sub-increment's displacement reaches the apex of the
"Pit Entry" corner, the car enters the pit state machine with `in_pit` set to
true and `pit_duration` left unchanged — there is no reset; the value is `0`
at the car's first pit entry only because it is initialised to `0` and is
modified exclusively while `in_pit` holds. When the corner after advancing
the pointer is "Pit Entry" but the upcoming lap is not the car's pit lap, the
pointer is advanced once more, and otherwise it is not. -/
theorem C5_theorem (track : Track) (car : Car) (nc : Corner) (apex_dist : ℚ)
    (hcross : roundq 2 car.distance_travel ≥ roundq 2 apex_dist) :
    (nc.name = "Pit Entry" →
      (apexTransition track car nc apex_dist).in_pit = true ∧
      (apexTransition track car nc apex_dist).pit_duration = car.pit_duration ∧
      (car.pit_duration = 0 → (apexTransition track car nc apex_dist).pit_duration = 0)) ∧
    ((track.corner_list.getD ((car.next_corner + 1) % track.corner_list.length)
        cornerDefault).name = "Pit Entry" → car.lap_count + 1 ≠ car.pit_lap →
      (apexTransition track car nc apex_dist).next_corner
        = ((car.next_corner + 1) % track.corner_list.length + 1) % track.corner_list.length) ∧
    ((track.corner_list.getD ((car.next_corner + 1) % track.corner_list.length)
        cornerDefault).name ≠ "Pit Entry" →
      (apexTransition track car nc apex_dist).next_corner
        = (car.next_corner + 1) % track.corner_list.length) := by
  simp only [apexTransition, if_pos hcross]
  refine ⟨fun hname => ?_, fun hpitc hlap => ?_, fun hnp => ?_⟩
  · rw [if_pos hname]
    exact ⟨rfl, rfl, fun h => h⟩
  · split_ifs with hA hB hB2
    · rfl
    · exact absurd ⟨hpitc, hlap⟩ hB
    · rfl
    · exact absurd ⟨hpitc, hlap⟩ hB2
  · split_ifs with hA hB hB2
    · exact absurd hB.1 hnp
    · rfl
    · exact absurd hB2.1 hnp
    · rfl

/-- Witness for C5 at a concrete first pit entry: a fresh car (with
`pit_duration = 0`) crossing the "Pit Entry" apex ends with `in_pit = true`
and `pit_duration = 0`. -/
theorem C5_witness :
    (apexTransition
        ⟨"T", 1000, 20, 15,
          [⟨"Pit Entry", 900, 950, 980, 30, 30, 0⟩, ⟨"Turn 1", 100, 110, 120, 30, 30, 2⟩], 0⟩
        { carDefault with distance_travel := 10, pit_lap := 1 }
        ⟨"Pit Entry", 900, 950, 980, 30, 30, 0⟩ 5).in_pit = true ∧
    (apexTransition
        ⟨"T", 1000, 20, 15,
          [⟨"Pit Entry", 900, 950, 980, 30, 30, 0⟩, ⟨"Turn 1", 100, 110, 120, 30, 30, 2⟩], 0⟩
        { carDefault with distance_travel := 10, pit_lap := 1 }
        ⟨"Pit Entry", 900, 950, 980, 30, 30, 0⟩ 5).pit_duration = 0 := by
  have h := ( C5_theorem
      ⟨"T", 1000, 20, 15,
        [⟨"Pit Entry", 900, 950, 980, 30, 30, 0⟩, ⟨"Turn 1", 100, 110, 120, 30, 30, 2⟩], 0⟩
      { carDefault with distance_travel := 10, pit_lap := 1 }
      ⟨"Pit Entry", 900, 950, 980, 30, 30, 0⟩ 5
      (by norm_num [roundq, round_eq, carDefault, Car.init])).1 rfl
  exact ⟨h.1, h.2.2 rfl⟩

/-- C5 counterexample: crossing the "Pit Entry" apex sets `in_pit` but does
not reset `pit_duration`: a car entering the pit corner with a stale
`pit_duration = 5` keeps that value after the transition. -/
theorem C5_counterexample :
    (apexTransition
        ⟨"T", 1000, 20, 15,
          [⟨"Pit Entry", 900, 950, 980, 30, 30, 0⟩, ⟨"Turn 1", 100, 110, 120, 30, 30, 2⟩], 0⟩
        { carDefault with distance_travel := 10, pit_duration := 5, pit_lap := 1 }
        ⟨"Pit Entry", 900, 950, 980, 30, 30, 0⟩ 5).in_pit = true ∧
    (apexTransition
        ⟨"T", 1000, 20, 15,
          [⟨"Pit Entry", 900, 950, 980, 30, 30, 0⟩, ⟨"Turn 1", 100, 110, 120, 30, 30, 2⟩], 0⟩
        { carDefault with distance_travel := 10, pit_duration := 5, pit_lap := 1 }
        ⟨"Pit Entry", 900, 950, 980, 30, 30, 0⟩ 5).pit_duration = 5 := by
  refine ⟨?_, ?_⟩ <;>
    norm_num [apexTransition, roundq, round_eq, carDefault, Car.init, cornerDefault,
      Corner.init]

/-- The cascading re-pass loop does nothing with no fuel left. -/
theorem cascade_zero (k : ℕ) (st : OState) : cascade k 0 st = st := rfl

/-- One unfolding of the cascading re-pass loop (source lines 837-861). -/
theorem cascade_succ (k fuel : ℕ) (st : OState) :
    cascade k (fuel + 1) st =
      if st.mover.distance_travel
          < (st.positions.getD k carDefault).distance - st.mover.distance ∧ st.cp < k then
        cascade (k + 1) fuel
          { positions := (st.positions.set (k - 1) (st.positions.getD k carDefault)).set k
              st.mover, cp := k, stuck := st.stuck }
      else st := rfl

/-- C6 amended: after a block, the resolver walks the cars behind the
stalled mover in order and swaps the ordering for each trailing car whose
current distance exceeds the mover's stalled resulting distance
(`mover.distance + clamped displacement < trailing.distance`) — not any
displacement of the trailing car — stopping at the first trailing car for
which this fails, regardless of what that car's stored displacement would
have achieved. -/
theorem C6_theorem (ctx : OCtx) (L M B1 B2 : Car)
    (hreach : ¬(M.distance + ctx.potential_dist ≤ L.distance - ctx.car_length))
    (hfin : L.name ∉ ctx.finished)
    (hpit : L.in_pit = false)
    (hblocked : ¬(ctx.potential_speed - L.speed ≥ overtake_req ctx M
      ∨ overtake_req ctx M = 0)) :
    (L.distance - M.distance - ctx.car_length < B1.distance - M.distance →
      (L.distance - M.distance - ctx.car_length < B2.distance - M.distance →
        overtake ctx ⟨[L, M, B1, B2], 1, false⟩
          = ⟨[L, B1, B2,
              { M with distance_travel := L.distance - M.distance - ctx.car_length,
                       speed := min L.speed ctx.potential_speed }], 3, true⟩) ∧
      (¬(L.distance - M.distance - ctx.car_length < B2.distance - M.distance) →
        overtake ctx ⟨[L, M, B1, B2], 1, false⟩
          = ⟨[L, B1,
              { M with distance_travel := L.distance - M.distance - ctx.car_length,
                       speed := min L.speed ctx.potential_speed }, B2], 2, true⟩)) ∧
    (¬(L.distance - M.distance - ctx.car_length < B1.distance - M.distance) →
      overtake ctx ⟨[L, M, B1, B2], 1, false⟩
        = ⟨[L,
            { M with distance_travel := L.distance - M.distance - ctx.car_length,
                     speed := min L.speed ctx.potential_speed }, B1, B2], 1, true⟩) := by
  have hkey : overtake ctx ⟨[L, M, B1, B2], 1, false⟩
      = (overtakeStep ctx 0 ⟨[L, M, B1, B2], 1, false⟩).1 := rfl
  refine ⟨fun hc1 => ⟨fun hc2 => ?_, fun hc2 => ?_⟩, fun hc1 => ?_⟩
  all_goals
    rw [hkey]
    simp only [overtakeStep, OState.mover, OState.setMover, takePotential,
      List.getD_cons_succ, List.getD_cons_zero]
    rw [if_neg hreach, if_neg hfin, if_neg (by simpa using hpit), if_neg hblocked]
    norm_num [List.length_set, List.set_cons_succ, List.set_cons_zero]
    rw [cascade_succ]
    norm_num [OState.mover, List.getD_cons_succ, List.getD_cons_zero,
      List.set_cons_succ, List.set_cons_zero]
  · rw [if_pos hc1, cascade_succ]
    norm_num [OState.mover, List.getD_cons_succ, List.getD_cons_zero,
      List.set_cons_succ, List.set_cons_zero]
    rw [if_pos hc2, cascade_zero]
  · rw [if_pos hc1, cascade_succ]
    norm_num [OState.mover, List.getD_cons_succ, List.getD_cons_zero,
      List.set_cons_succ, List.set_cons_zero]
    intro h
    exact absurd h hc2
  · intro h
    exact absurd h hc1


/-- Witness for C6 at a concrete single-swap cascade: the blocked mover
(stalled at distance 99) is re-passed by the first trailing car at distance
101, and the walk stops at the second trailing car at distance 95. -/
theorem C6_witness :
    (overtake
        ⟨⟨"T", 1000, 20, 15, [], 0⟩, 5, [],
          ⟨"c1", 700, 750, 800, 30, 30, 2⟩, ⟨"c0", 90, 95, 110, 30, 30, 50⟩, 10, 10⟩
        ⟨[{ carDefault with name := "L", distance := 104, speed := 9 },
          { carDefault with name := "M", distance := 100, speed := 8 },
          { carDefault with name := "B1", distance := 101 },
          { carDefault with name := "B2", distance := 95 }], 1, false⟩).cp = 2 ∧
    ((overtake
        ⟨⟨"T", 1000, 20, 15, [], 0⟩, 5, [],
          ⟨"c1", 700, 750, 800, 30, 30, 2⟩, ⟨"c0", 90, 95, 110, 30, 30, 50⟩, 10, 10⟩
        ⟨[{ carDefault with name := "L", distance := 104, speed := 9 },
          { carDefault with name := "M", distance := 100, speed := 8 },
          { carDefault with name := "B1", distance := 101 },
          { carDefault with name := "B2", distance := 95 }], 1,
          false⟩).positions.getD 1 carDefault).name = "B1" := by
  have h := (( C6_theorem
      ⟨⟨"T", 1000, 20, 15, [], 0⟩, 5, [],
        ⟨"c1", 700, 750, 800, 30, 30, 2⟩, ⟨"c0", 90, 95, 110, 30, 30, 50⟩, 10, 10⟩
      { carDefault with name := "L", distance := 104, speed := 9 }
      { carDefault with name := "M", distance := 100, speed := 8 }
      { carDefault with name := "B1", distance := 101 }
      { carDefault with name := "B2", distance := 95 }
      (by norm_num [carDefault, Car.init])
      (by simp)
      rfl
      (by norm_num [overtake_req, carDefault, Car.init])).1
      (by norm_num [carDefault, Car.init])).2
      (by norm_num [carDefault, Car.init])
  rw [h]
  exact ⟨rfl, rfl⟩

/-- C6 counterexample: the cascading re-pass condition compares the trailing
car's current distance, not its already-computed displacement. The mover,
blocked and clamped to a stalled resulting distance of 99, has a trailing car
at distance 98 whose stored displacement 5 would carry it to 103 — past the
mover — yet no swap happens because `98 < 100` fails the code's test. -/
theorem C6_counterexample :
    (overtake
        ⟨⟨"T", 1000, 20, 15, [], 0⟩, 5, [],
          ⟨"c1", 700, 750, 800, 30, 30, 2⟩, ⟨"c0", 90, 95, 110, 30, 30, 50⟩, 10, 10⟩
        ⟨[{ carDefault with name := "L", distance := 104, speed := 9 },
          { carDefault with name := "M", distance := 100, speed := 8 },
          { carDefault with name := "B", distance := 98, distance_travel := 5 }], 1,
          false⟩).cp = 1 ∧
    ((overtake
        ⟨⟨"T", 1000, 20, 15, [], 0⟩, 5, [],
          ⟨"c1", 700, 750, 800, 30, 30, 2⟩, ⟨"c0", 90, 95, 110, 30, 30, 50⟩, 10, 10⟩
        ⟨[{ carDefault with name := "L", distance := 104, speed := 9 },
          { carDefault with name := "M", distance := 100, speed := 8 },
          { carDefault with name := "B", distance := 98, distance_travel := 5 }], 1,
          false⟩).positions.getD 2 carDefault).name = "B" ∧
    ((overtake
        ⟨⟨"T", 1000, 20, 15, [], 0⟩, 5, [],
          ⟨"c1", 700, 750, 800, 30, 30, 2⟩, ⟨"c0", 90, 95, 110, 30, 30, 50⟩, 10, 10⟩
        ⟨[{ carDefault with name := "L", distance := 104, speed := 9 },
          { carDefault with name := "M", distance := 100, speed := 8 },
          { carDefault with name := "B", distance := 98, distance_travel := 5 }], 1,
          false⟩).positions.getD 2 carDefault).distance
      + ((overtake
        ⟨⟨"T", 1000, 20, 15, [], 0⟩, 5, [],
          ⟨"c1", 700, 750, 800, 30, 30, 2⟩, ⟨"c0", 90, 95, 110, 30, 30, 50⟩, 10, 10⟩
        ⟨[{ carDefault with name := "L", distance := 104, speed := 9 },
          { carDefault with name := "M", distance := 100, speed := 8 },
          { carDefault with name := "B", distance := 98, distance_travel := 5 }], 1,
          false⟩).positions.getD 2 carDefault).distance_travel
      > (overtake
        ⟨⟨"T", 1000, 20, 15, [], 0⟩, 5, [],
          ⟨"c1", 700, 750, 800, 30, 30, 2⟩, ⟨"c0", 90, 95, 110, 30, 30, 50⟩, 10, 10⟩
        ⟨[{ carDefault with name := "L", distance := 104, speed := 9 },
          { carDefault with name := "M", distance := 100, speed := 8 },
          { carDefault with name := "B", distance := 98, distance_travel := 5 }], 1,
          false⟩).mover.distance
      + (overtake
        ⟨⟨"T", 1000, 20, 15, [], 0⟩, 5, [],
          ⟨"c1", 700, 750, 800, 30, 30, 2⟩, ⟨"c0", 90, 95, 110, 30, 30, 50⟩, 10, 10⟩
        ⟨[{ carDefault with name := "L", distance := 104, speed := 9 },
          { carDefault with name := "M", distance := 100, speed := 8 },
          { carDefault with name := "B", distance := 98, distance_travel := 5 }], 1,
          false⟩).mover.distance_travel := by
  refine ⟨?_, ?_, ?_⟩ <;>
    norm_num [overtake, overtakeScan, overtakeStep, overtake_req, takePotential, cascade,
      OState.mover, OState.setMover, carDefault, Car.init]

/-- C2: after every `calc_tyre_perf` call the car's performance multiplier
equals `max(1 − tyre_deg², 0.25)`, lies in `[0.25, 1]`, and its degradation
equals `tyre_wear / max_tyre_life`; a freshly constructed car starts at
performance `1`, and the in-box pit reset puts wear and degradation to `0`
and performance to `1` (the one discontinuous reset). -/
theorem C2_theorem (car : Car) (max_fuel_effect race_distance s : ℚ)
    (name : String) (ma mb ms mtl corn ds : ℚ) (pl : ℕ) (bt bl : ℚ) :
    (car.calc_tyre_perf max_fuel_effect race_distance).tyre_perf
      = max (1 - (car.calc_tyre_perf max_fuel_effect race_distance).tyre_deg ^ 2) (1 / 4) ∧
    1 / 4 ≤ (car.calc_tyre_perf max_fuel_effect race_distance).tyre_perf ∧
    (car.calc_tyre_perf max_fuel_effect race_distance).tyre_perf ≤ 1 ∧
    (car.calc_tyre_perf max_fuel_effect race_distance).tyre_deg
      = (car.calc_tyre_perf max_fuel_effect race_distance).tyre_wear / car.max_tyre_life ∧
    (pitBoxStep car s).tyre_wear = 0 ∧
    (pitBoxStep car s).tyre_deg = 0 ∧
    (pitBoxStep car s).tyre_perf = 1 ∧
    (Car.init name ma mb ms mtl corn ds pl bt bl).tyre_perf = 1 := by
  have key : ∀ d : ℚ, 1 / 4 ≤ max (1 - d ^ 2) (1 / 4) ∧ max (1 - d ^ 2) (1 / 4) ≤ 1 := by
    intro d
    refine ⟨le_max_right _ _, max_le (by nlinarith [sq_nonneg d]) (by norm_num)⟩
  refine ⟨rfl, (key _).1, (key _).2, rfl, rfl, rfl, rfl, rfl⟩

/-- C4: the leader (position index `0`) is never blocked by the overtake
resolver: it takes its potential displacement and speed, the ordering is
unchanged apart from the mover's own field update, and the blocked flag is
untouched. -/
theorem C4_theorem (ctx : OCtx) (st : OState) (h : st.cp = 0)
    (h0 : 0 < st.positions.length) :
    (overtake ctx st).positions
      = st.positions.set 0
          { st.mover with distance_travel := ctx.potential_dist, speed := ctx.potential_speed } ∧
    (overtake ctx st).cp = 0 ∧
    (overtake ctx st).stuck = st.stuck ∧
    (overtake ctx st).mover.distance_travel = ctx.potential_dist ∧
    (overtake ctx st).mover.speed = ctx.potential_speed := by
  rw [overtake, if_pos h]
  refine ⟨by rw [takePotential, OState.setMover, h], by simp [takePotential, OState.setMover, h],
    rfl, ?_, ?_⟩ <;>
  · simp only [takePotential, OState.setMover, OState.mover]
    rw [getD_set_self _ _ _ _ (by omega)]

/-- Witness for C4 at a concrete one-car state. -/
theorem C4_witness :
    (overtake ⟨⟨"T", 1000, 20, 15, [], 0⟩, 5, [], cornerDefault, cornerDefault, 7, 40⟩
        ⟨[carDefault], 0, false⟩).cp = 0 ∧
    (overtake ⟨⟨"T", 1000, 20, 15, [], 0⟩, 5, [], cornerDefault, cornerDefault, 7, 40⟩
        ⟨[carDefault], 0, false⟩).mover.distance_travel = 7 :=
  ⟨( C4_theorem _ _ rfl (by decide)).2.1, ( C4_theorem _ _ rfl (by decide)).2.2.2.1⟩

/-- C7 counterexample: construction does not fail on degenerate
configurations — a `Car` with zero acceleration, negative braking and zero
tyre life, and a `Corner` whose start/apex/end markers are out of monotonic
order, are both constructed successfully with the degenerate values stored
verbatim. -/
theorem C7_counterexample :
    (Car.init "X" 0 (-1) 0 0 1 1 1 1 1).max_accel = 0 ∧
    (Car.init "X" 0 (-1) 0 0 1 1 1 1 1).max_brake = -1 ∧
    (Car.init "X" 0 (-1) 0 0 1 1 1 1 1).max_tyre_life = 0 ∧
    (Corner.init "C" 3 2 1 10 0).start = 3 ∧
    (Corner.init "C" 3 2 1 10 0).apex = 2 ∧
    (Corner.init "C" 3 2 1 10 0).end_ = 1 := by
  decide

/-- C7 amended: the `Car` and `Corner` constructors perform no validation at
all — for every argument list, including degenerate ones, construction
succeeds, stores the capability arguments verbatim and initialises the
mutable state to its fixed starting values. -/
theorem C7_theorem (name : String)
    (max_accel max_brake max_speed max_tyre_life cornering drive_style : ℚ)
    (pit_lap : ℕ) (box_time box_location : ℚ)
    (cname : String) (start apex end_ cms covt : ℚ) :
    Car.init name max_accel max_brake max_speed max_tyre_life cornering drive_style
        pit_lap box_time box_location
      = { name := name, max_accel := max_accel, max_brake := max_brake,
          max_speed := max_speed, cornering := cornering, drive_style := drive_style,
          accel := max_accel, brake := max_brake, speed := 0, distance := 0,
          distance_travel := 0, max_tyre_life := max_tyre_life, tyre_wear := 0,
          tyre_deg := 0, tyre_perf := 1, tyre_corner_penalty := 0, lap_count := 0,
          pit_lap := pit_lap, box_time := box_time, box_location := box_location,
          stopped := false, in_pit := false, pit_duration := 0, next_corner := 0 } ∧
    Corner.init cname start apex end_ cms covt
      = { name := cname, start := start, apex := apex, end_ := end_,
          max_speed := cms, speed := cms, overtake := covt } :=
  ⟨rfl, rfl⟩

/-- C8 counterexample: the early-termination test is a function of the
simulated race clock (the `race_time` the loop advances by one simulated
second per macro-tick), not of any wall-clock quantity: with the limit
enabled and the race unfinished, the loop condition flips from `true` to
`false` purely because the simulated clock reaches 90. -/
theorem C8_counterexample :
    raceWhileCond false 0 true = true ∧
    raceWhileCond false 90 true = false ∧
    advanceRaceClock 89 = 90 := by
  refine ⟨?_, ?_, ?_⟩ <;> norm_num [raceWhileCond, time_limit_of, advanceRaceClock]

/-- C8 amended: the optional limit is a simulated race-time budget — with the
limit enabled, the macro-tick loop condition holds exactly while the race is
unfinished and the simulated clock is below 90 seconds; with it disabled,
exactly while the race is unfinished; `race_finished` is set exactly when the
finished-car count equals the car count, and a car is counted finished
exactly when its distance exceeds the race distance. -/
theorem C8_theorem (race_finished : Bool) (race_time : ℚ) (f c : ℕ)
    (car : Car) (lap_length : ℚ) (race_laps : ℕ) :
    (raceWhileCond race_finished race_time true = true
      ↔ race_finished = false ∧ race_time < 90) ∧
    (raceWhileCond race_finished race_time false = true ↔ race_finished = false) ∧
    (raceFinishedCheck f c = true ↔ f = c) ∧
    (carFinished car lap_length race_laps = true
      ↔ car.distance > lap_length * (race_laps : ℚ)) ∧
    advanceRaceClock race_time = race_time + 1 := by
  refine ⟨?_, ?_, ?_, ?_, rfl⟩ <;>
    simp [raceWhileCond, time_limit_of, raceFinishedCheck, carFinished]

/-- C9: `race` deep-copies the starting grid before simulating: running any
number of macro-ticks mutates only the copied cars, and the caller's car
store comes back entirely unchanged, field for field. -/
theorem C9_theorem (ctx0 : OCtx) (pots : List (ℚ × ℚ)) (store : List Car)
    (grid : List ℕ) (ticks : ℕ) :
    (raceFrameModel ctx0 pots store grid ticks).1 = store ∧
    ∀ r, (raceFrameModel ctx0 pots store grid ticks).1.getD r carDefault
      = store.getD r carDefault :=
  ⟨rfl, fun _ => rfl⟩

/-- C10 counterexample: with zero braking, `solve_accel_brake_time_func`
does not return a value in `[0, 1]` at all — the `t_b_ratio` division of
source line 488 sits outside the try/except, so `max_brake = 0` raises an
uncaught `ZeroDivisionError` (modelled as `none`) instead of reaching the
solver or its fallback. -/
theorem C10_counterexample :
    solve_accel_brake_time_func trivialSolver 30 10 0 5 = none := by
  norm_num [solve_accel_brake_time_func]

/-- C10 amended: `solve_brake_time_func` is total for every input and
returns either a root of its phase equation in `[0, 1]` or the fallback `1`;
`solve_accel_brake_time_func` raises an uncaught `ZeroDivisionError` when
`max_brake = 0` (its `t_b_ratio` division precedes the try/except), and for
every input with `max_brake ≠ 0` it never raises and returns either a root
of its phase equation in `[0, 1]` or the fallback `1`. -/
theorem C10_theorem (bq : BrentqSolver) (vel_0 max_accel max_brake dist_delta : ℚ) :
    (0 ≤ solve_brake_time_func bq vel_0 max_brake dist_delta ∧
     solve_brake_time_func bq vel_0 max_brake dist_delta ≤ 1 ∧
     (brake_time_poly vel_0 max_brake dist_delta
        (solve_brake_time_func bq vel_0 max_brake dist_delta) = 0 ∨
      solve_brake_time_func bq vel_0 max_brake dist_delta = 1)) ∧
    (max_brake = 0 →
      solve_accel_brake_time_func bq vel_0 max_accel max_brake dist_delta = none) ∧
    (max_brake ≠ 0 →
      ∃ t, solve_accel_brake_time_func bq vel_0 max_accel max_brake dist_delta = some t ∧
        0 ≤ t ∧ t ≤ 1 ∧
        (accel_brake_time_poly vel_0 max_accel max_brake
           ((-max_brake + max_accel) / (-max_brake)) dist_delta t = 0 ∨ t = 1)) := by
  refine ⟨?_, ?_, ?_⟩
  · unfold solve_brake_time_func
    rcases hsolve : bq.solve (brake_time_poly vel_0 max_brake dist_delta) 0 1 with _ | r
    · simp
    · obtain ⟨ha, hb, hr⟩ := bq.solve_mem _ _ _ _ hsolve
      exact ⟨ha, hb, Or.inl hr⟩
  · intro h0
    unfold solve_accel_brake_time_func
    rw [if_pos (by rw [h0, neg_zero])]
  · intro hne
    unfold solve_accel_brake_time_func
    rw [if_neg (fun hh => hne (neg_eq_zero.mp hh))]
    rcases hsolve : bq.solve (accel_brake_time_poly vel_0 max_accel max_brake
        ((-max_brake + max_accel) / (-max_brake)) dist_delta) 0 1 with _ | r
    · exact ⟨1, rfl, by norm_num, by norm_num, Or.inr rfl⟩
    · obtain ⟨ha, hb, hr⟩ := bq.solve_mem _ _ _ _ hsolve
      exact ⟨r, rfl, ha, hb, Or.inl hr⟩

/-- Witness for C10 at concrete inputs with non-zero braking: both solvers
return the fallback `1` under the always-failing solver. -/
theorem C10_witness :
    (0 ≤ solve_brake_time_func trivialSolver 30 (-12) 5 ∧
     solve_brake_time_func trivialSolver 30 (-12) 5 ≤ 1 ∧
     (brake_time_poly 30 (-12) 5 (solve_brake_time_func trivialSolver 30 (-12) 5) = 0 ∨
      solve_brake_time_func trivialSolver 30 (-12) 5 = 1)) ∧
    (∃ t, solve_accel_brake_time_func trivialSolver 30 10 (-12) 5 = some t ∧
      0 ≤ t ∧ t ≤ 1 ∧
      (accel_brake_time_poly 30 10 (-12) ((-(-12) + 10) / (-(-12))) 5 t = 0 ∨ t = 1)) :=
  ⟨( C10_theorem trivialSolver 30 10 (-12) 5).1,
   ( C10_theorem trivialSolver 30 10 (-12) 5).2.2 (by norm_num)⟩

end RaceSim
